import Mathlib

/-!
Verification development for the crsod repository (a Firefox extension that
substitutes alternate-language caption tracks and reconciles their timing).

The definitions below are a shallow embedding of the JavaScript sources:

  * src/unnamed/part_003  — script/subtitle utility functions
  * src/unnamed/part_002  — the Interceptor base class
  * src/src/intercept_script.js — ScriptRewriteContext, ScriptInterceptor
  * src/src/intercept_play.js   — PlayResponse, PlayInterceptor

JavaScript strings are modelled as List Char; JavaScript numbers arising from
Number() conversions are modelled by JsNum (an integer or NaN); thrown
exceptions are modelled with Except JsErr; a Promise that a method awaits is
modelled as an Except value (already settled: resolved or rejected).
-/

/-- A thrown JavaScript error.  typeError stands for the TypeError raised by
a property access or method call on undefined or null; jsError stands for a
thrown Error with a message. -/
inductive JsErr where
  | typeError
  | jsError (msg : String)
deriving DecidableEq, Repr

/-- A JavaScript number as it occurs in this code base: an exact integer or
NaN.  All numbers the intercepted code computes with are integers
(milliseconds, byte lengths) except when a Number() conversion fails, which
yields NaN. -/
inductive JsNum where
  | nan
  | num (n : Int)
deriving DecidableEq, Repr

/-- JavaScript addition on JsNum: NaN propagates through every arithmetic
operation. -/
def JsNum.add : JsNum → JsNum → JsNum
  | .num a, .num b => .num (a + b)
  | _, _ => .nan

/-- JavaScript subtraction on JsNum. -/
def JsNum.sub : JsNum → JsNum → JsNum
  | .num a, .num b => .num (a - b)
  | _, _ => .nan

/-- JavaScript multiplication on JsNum. -/
def JsNum.mul : JsNum → JsNum → JsNum
  | .num a, .num b => .num (a * b)
  | _, _ => .nan

/-- Value of a nonempty all-digit decimal string. -/
def digitsVal (s : List Char) : Nat :=
  s.foldl (fun acc c => acc * 10 + (c.toNat - 48)) 0

/-- Model of the JavaScript Number() conversion as applied to an indexing
result that may be undefined (none).  Number(undefined) is NaN; Number of the
empty string is 0; a nonempty string of decimal digits converts to its value;
every other string is mapped to NaN.  The sources only ever convert
fields cut out of an H:MM:SS.CC timestamp, so only the decimal-digit fragment
of Number() is ever exercised with a non-NaN result, and every theorem below
that touches other strings depends only on NaN propagation. -/
def jsNumber : Option (List Char) → JsNum
  | none => .nan
  | some [] => .num 0
  | some s => if s.all (fun c => c.isDigit) then .num (digitsVal s) else .nan

/-- String.prototype.split with a single-character separator, e.g.
timestr.split(":").  Empty pieces are kept, and splitting the empty string
yields one empty piece, as in JavaScript. -/
def splitChar (sep : Char) : List Char → List (List Char)
  | [] => [[]]
  | c :: rest =>
    let ps := splitChar sep rest
    if c = sep then [] :: ps
    else
      match ps with
      | [] => [[c]]
      | p :: tl => (c :: p) :: tl

/-- String.prototype.split on the two-character separator CRLF, as in
script.split with a carriage-return line-feed pair. -/
def splitCRLF : List Char → List (List Char)
  | [] => [[]]
  | '\r' :: '\n' :: rest => [] :: splitCRLF rest
  | c :: rest =>
    match splitCRLF rest with
    | [] => [[c]]
    | p :: tl => (c :: p) :: tl

/-- Array.prototype.join with a one-character separator. -/
def joinChar (sep : Char) (pieces : List (List Char)) : List Char :=
  List.intercalate [sep] pieces

/-- Array.prototype.join with the CRLF separator. -/
def joinCRLF (pieces : List (List Char)) : List Char :=
  List.intercalate ['\r', '\n'] pieces

/-- Whether pat occurs as a contiguous substring, i.e. indexOf(pat) != -1. -/
def containsSub (pat s : List Char) : Bool :=
  s.tails.any (fun t => pat.isPrefixOf t)

-- ------------------------------------------------------------------
-- src/unnamed/part_003: utility functions for script/subtitle data
-- ------------------------------------------------------------------

def MS_PER_HOUR : Int := 60 * 60 * 1000
def MS_PER_MINUTE : Int := 60 * 1000
def MS_PER_SECOND : Int := 1000
def MS_PER_CENTISECOND : Int := 10

/-- script_parse_time from part_003.  fields[2] being undefined makes
fields[2].split a TypeError; otherwise every missing piece flows through
Number() as NaN.  The sum is associated left to right as in the source. -/
def script_parse_time (timestr : List Char) : Except JsErr JsNum :=
  let fields := splitChar ':' timestr
  match fields[2]? with
  | none => .error .typeError
  | some f2 =>
    let s_cs := splitChar '.' f2
    .ok (((((jsNumber fields[0]?).mul (.num MS_PER_HOUR)).add
           ((jsNumber fields[1]?).mul (.num MS_PER_MINUTE))).add
          ((jsNumber s_cs[0]?).mul (.num MS_PER_SECOND))).add
         ((jsNumber s_cs[1]?).mul (.num MS_PER_CENTISECOND)))

/-- One while loop of script_render_time:
while (timems > unit) do count += 1; timems -= unit.
Returns the iteration count and the final timems.  The 0 < unit conjunct in
the guard only secures termination; every call site passes one of the
positive MS_PER constants, for which it is no restriction. -/
def render_field (unit : Int) (timems : Int) : Nat × Int :=
  if h : 0 < unit ∧ unit < timems then
    let p := render_field unit (timems - unit)
    (p.1 + 1, p.2)
  else (0, timems)
termination_by timems.toNat
decreasing_by omega

/-- String.prototype.padStart(2, "0"). -/
def padStart2 (s : List Char) : List Char :=
  List.replicate (2 - s.length) '0' ++ s

/-- script_render_time from part_003.  On NaN input every loop guard
(timems > unit) is false, so all four fields are zero. -/
def script_render_time (timems : JsNum) : List Char :=
  match timems with
  | .nan => "0:00:00.00".toList
  | .num t =>
    let hours := render_field MS_PER_HOUR t
    let minutes := render_field MS_PER_MINUTE hours.2
    let seconds := render_field MS_PER_SECOND minutes.2
    let centiseconds := render_field MS_PER_CENTISECOND seconds.2
    (toString hours.1).toList ++ [':']
      ++ padStart2 (toString minutes.1).toList ++ [':']
      ++ padStart2 (toString seconds.1).toList ++ ['.']
      ++ padStart2 (toString centiseconds.1).toList

/-- The CHARS constant of script_normalize. -/
def NORMALIZE_CHARS : List Char :=
  "ABCDEFGHIJKLMNOPQRSTUVWXYZabcdefghijklmnopqrstuvwxyz0123456789".toList

/-- The character-scanning loop of script_normalize, with the first argument
recording whether the index currently sits inside the inner while loop that
skips an override block (i.e. between an opening curly brace and the next
closing one, which the for loop increment then steps past).  Outside that
state, a backslash skips itself and the following character, an opening
curly brace enters the skipping state, and of the remaining characters
exactly those in CHARS are kept. -/
def script_normalize_go : Bool → List Char → List Char
  | _, [] => []
  | true, c :: rest =>
    if c = '\x7d' then script_normalize_go false rest
    else script_normalize_go true rest
  | false, '\\' :: rest =>
    match rest with
    | [] => []
    | _ :: rest2 => script_normalize_go false rest2
  | false, c :: rest =>
    if c = '\x7b' then script_normalize_go true rest
    else if c ∈ NORMALIZE_CHARS then c :: script_normalize_go false rest
    else script_normalize_go false rest

/-- script_normalize from part_003. -/
def script_normalize (text : List Char) : List Char :=
  script_normalize_go false text

/-- line.indexOf(",") followed by line.substring(idx + 1): when no comma is
present indexOf yields -1 and substring(0) returns the whole line. -/
def drop_after_comma (line : List Char) : List Char :=
  match line.dropWhile (fun c => c ≠ ',') with
  | [] => line
  | _ :: rest => rest

/-- script_extract_text from part_003: skips nine leading comma-delimited
fields of a Dialogue line. -/
def script_extract_text (line : List Char) : List Char :=
  Nat.repeat drop_after_comma 9 line

/-- One parsed Dialogue line, as produced by script_dialogue_lines. -/
structure DialogueLine where
  raw : List Char
  text : List Char
  time : JsNum
deriving DecidableEq, Repr

/-- script_dialogue_lines from part_003.  line.split(",", 2)[1] equals
element 1 of the unlimited split; when it is undefined the call
script_parse_time(undefined) throws a TypeError at undefined.split. -/
def script_dialogue_lines (script : List Char) : Except JsErr (List DialogueLine) :=
  let lines := (splitCRLF script).filter (fun s => "Dialogue: ".toList.isPrefixOf s)
  lines.mapM (fun line =>
    let text := script_extract_text line
    match (splitChar ',' line)[1]? with
    | none => .error .typeError
    | some t =>
      (script_parse_time t).map (fun time =>
        { raw := line, text := script_normalize text, time := time }))

/-- The nested for loops of script_match_text: scan dialog1 in order, skip
every line whose normalized text is shorter than 6, and for the rest return
the first line of dialog2 with exactly equal normalized text. -/
def script_match_line :
    List DialogueLine → List DialogueLine → Option (DialogueLine × DialogueLine)
  | [], _ => none
  | l1 :: rest, dialog2 =>
    if l1.text.length < 6 then script_match_line rest dialog2
    else
      match dialog2.find? (fun l2 => l1.text == l2.text) with
      | some l2 => some (l1, l2)
      | none => script_match_line rest dialog2

/-- script_match_text from part_003. -/
def script_match_text (script1 script2 : List Char) :
    Except JsErr (Option (DialogueLine × DialogueLine)) := do
  let dialog1 ← script_dialogue_lines script1
  let dialog2 ← script_dialogue_lines script2
  pure (script_match_line dialog1 dialog2)

/-- script_timing_adjust from part_003: null when no match, else the
difference of the two matched start times. -/
def script_timing_adjust (script1 script2 : List Char) :
    Except JsErr (Option JsNum) :=
  (script_match_text script1 script2).map (fun matched =>
    matched.map (fun m => m.1.time.sub m.2.time))

-- ------------------------------------------------------------------
-- src/unnamed/part_002: the Interceptor base class
-- ------------------------------------------------------------------

/-- The observable state of one in-progress interception: the accumulated
response body, the bodies written back through the filter, whether the filter
has been disconnected, and whether an error has been signalled (the base
onerror logging path). -/
structure FilterState where
  buf : List Char
  writes : List (List Char)
  disconnected : Bool
  errored : Bool
deriving DecidableEq, Repr

/-- Interceptor.onerror from part_002: log the error and disconnect the
filter. -/
def interceptor_onerror (st : FilterState) : FilterState :=
  { st with errored := true, disconnected := true }

/-- Interceptor.onstop from part_002, with the (dynamically dispatched)
oncomplete transform and onerror handler as parameters.  An empty buffer
disconnects without invoking oncomplete; otherwise the oncomplete result is
written and the filter disconnected, and a rejection goes to onerror. -/
def interceptor_onstop (oncomplete : List Char → Except JsErr (List Char))
    (onerror : JsErr → FilterState → FilterState) (st : FilterState) : FilterState :=
  if st.buf = [] then { st with disconnected := true }
  else
    match oncomplete st.buf with
    | .ok body => { st with writes := st.writes ++ [body], disconnected := true }
    | .error e => onerror e st

-- ------------------------------------------------------------------
-- src/src/intercept_play.js: PlayResponse (data model part)
-- ------------------------------------------------------------------

def ALT_LANG : String := "ja-JP"

def SCRIPT_EMPTY_THRESHOLD : Nat := 7500

/-- One entry of the subtitles mapping of a /play response. -/
structure SubInfo where
  url : String
  format : String
  language : String
deriving DecidableEq, Repr

/-- The subtitles mapping: JSON object keys in insertion order. -/
abbrev SubsMap := List (String × SubInfo)

/-- Property read subs[lang] on a subtitles object: the value of the binding
for that key, or undefined. -/
def jsLookup (m : SubsMap) (k : String) : Option SubInfo :=
  (m.find? (fun p => p.1 == k)).map (fun p => p.2)

/-- Property write subs[lang] = obj: replaces the existing binding, or
appends a new one in insertion order. -/
def jsSetKey (m : SubsMap) (k : String) (v : SubInfo) : SubsMap :=
  if m.any (fun p => p.1 == k) then
    m.map (fun p => if p.1 == k then (k, v) else p)
  else m ++ [(k, v)]

/-- One element of the versions array of a /play response. -/
structure Version where
  audio_locale : String
  guid : String
deriving DecidableEq, Repr

/-- The parsed /play response body (the _raw field of PlayResponse). -/
structure PlayRaw where
  audioLocale : String
  versions : List Version
  subtitles : SubsMap
deriving DecidableEq, Repr

/-- PlayResponse.audio_lang. -/
def PlayResponse.audio_lang (raw : PlayRaw) : String :=
  raw.audioLocale

/-- PlayResponse.alt_guid: the first version with the alternative audio
locale, or a thrown Error. -/
def PlayResponse.alt_guid (raw : PlayRaw) : Except JsErr String :=
  match raw.versions.find? (fun v => v.audio_locale == ALT_LANG) with
  | some v => .ok v.guid
  | none => .error (.jsError ("Could not find any version with " ++ ALT_LANG))

/-- PlayResponse.guid: the first version matching the own audio locale, or a
thrown Error. -/
def PlayResponse.guid (raw : PlayRaw) : Except JsErr String :=
  match raw.versions.find? (fun v => v.audio_locale == raw.audioLocale) with
  | some v => .ok v.guid
  | none => .error (.jsError "Could not find current version")

/-- PlayResponse.set_subs. -/
def PlayResponse.set_subs (raw : PlayRaw) (lang : String) (obj : SubInfo) : PlayRaw :=
  { raw with subtitles := jsSetKey raw.subtitles lang obj }

/-- PlayResponse.should_replace_dub_sub.  The method first interpolates
guid() and alt_guid() into its log lines, either of which can throw; then it
awaits the dub script promise (whose rejection also propagates); absence of
the script text forces replacement, and presence allows replacement exactly
when the length does not exceed SCRIPT_EMPTY_THRESHOLD.  JavaScript string
length counts UTF-16 units; the scripts involved are ASCII, where this
coincides with the character count used here. -/
def PlayResponse.should_replace_dub_sub (raw : PlayRaw)
    (dub_script : Except JsErr (Option (List Char))) : Except JsErr Bool := do
  let _guid ← PlayResponse.guid raw
  let _alt_guid ← PlayResponse.alt_guid raw
  let script_text ← dub_script
  match script_text with
  | none => pure true
  | some t =>
    if t.length > SCRIPT_EMPTY_THRESHOLD then pure false
    else pure true

-- ------------------------------------------------------------------
-- src/src/intercept_script.js: the rewrite registry and the reconciler
-- ------------------------------------------------------------------

def SCRIPT_MAX_ADJUST : Int := 60000

instance {ε α : Type} [DecidableEq ε] [DecidableEq α] : DecidableEq (Except ε α) :=
  fun x y =>
    match x, y with
    | .ok a, .ok b => decidable_of_iff (a = b) (by simp)
    | .error a, .error b => decidable_of_iff (a = b) (by simp)
    | .ok _, .error _ => isFalse (by simp)
    | .error _, .ok _ => isFalse (by simp)

/-- ScriptRewriteContext.  The constructor deep-copies subs and alt_subs via
JSON round-tripping, which the value semantics of the embedding gives for
free.  The four Promise-valued fields are modelled as settled outcomes. -/
structure ScriptRewriteContext where
  url : String
  media : PlayRaw
  lang : String
  duration : Except JsErr Int
  alt_duration : Except JsErr Int
  dub_fetch : Except JsErr (Option (List Char))
  dub_alt_fetch : Except JsErr (Option (List Char))
  subs : SubsMap
  alt_subs : SubsMap
deriving DecidableEq, Repr

def MAX_INTERCEPT : Nat := 50

/-- The while loop of ScriptInterceptor.register: shift (drop the oldest,
frontmost entry) while more than MAX_INTERCEPT entries are present. -/
def register_trim (l : List ScriptRewriteContext) : List ScriptRewriteContext :=
  if MAX_INTERCEPT < l.length then register_trim l.tail else l
termination_by l.length
decreasing_by simp_all [List.length_tail]; omega

/-- ScriptInterceptor.register: push to the back, then clean up older
entries from the front. -/
def ScriptInterceptor.register (reg : List ScriptRewriteContext)
    (ctx : ScriptRewriteContext) : List ScriptRewriteContext :=
  register_trim (reg ++ [ctx])

/-- ScriptInterceptor.unregister: drop every context with the given URL. -/
def ScriptInterceptor.unregister (reg : List ScriptRewriteContext)
    (url : String) : List ScriptRewriteContext :=
  reg.filter (fun ctx => ctx.url ≠ url)

/-- ScriptInterceptor.context_for: the first registered context with the
given URL. -/
def ScriptInterceptor.context_for (reg : List ScriptRewriteContext)
    (url : String) : Option ScriptRewriteContext :=
  reg.find? (fun ctx => ctx.url == url)

/-- ScriptInterceptor.calculate_duration_adjustment: await both durations
and return their difference. -/
def calculate_duration_adjustment (ctx : ScriptRewriteContext) : Except JsErr Int := do
  let dub_duration ← ctx.duration
  let sub_duration ← ctx.alt_duration
  pure (dub_duration - sub_duration)

/-- The validation comparison Math.abs(adjust - duration_adjust) >
SCRIPT_MAX_ADJUST.  On a NaN adjust the comparison is false, as every
JavaScript comparison with NaN is. -/
def jsAbsSubGt (adjust : JsNum) (duration_adjust : Int) (bound : Int) : Bool :=
  match adjust with
  | .nan => false
  | .num a => bound < |a - duration_adjust|

/-- ScriptInterceptor.calculate_script_adjustment.  The structural guard
(either sub object missing or of a format other than ass) returns null
before the script promises are awaited.  An awaited script that resolved to
null throws a TypeError inside script_dialogue_lines at null.split. -/
def calculate_script_adjustment (ctx : ScriptRewriteContext)
    (duration_adjust : Int) (sub alt_sub : Option SubInfo) :
    Except JsErr (Option JsNum) :=
  match sub, alt_sub with
  | some s, some a =>
    if s.format ≠ "ass" ∨ a.format ≠ "ass" then .ok none
    else do
      let script ← ctx.dub_fetch
      let alt_script ← ctx.dub_alt_fetch
      match script, alt_script with
      | some s1, some s2 => do
        let adjust ← script_timing_adjust s1 s2
        match adjust with
        | none => .ok none
        | some adj =>
          if jsAbsSubGt adj duration_adjust SCRIPT_MAX_ADJUST then .ok none
          else .ok (some adj)
      | _, _ => .error .typeError
  | _, _ => .ok none

/-- ScriptInterceptor.calculate_adjustment.  The closing log line
interpolates this.ctx.media.guid(), which can throw, so its success is part
of the control flow. -/
def calculate_adjustment (ctx : ScriptRewriteContext) : Except JsErr JsNum := do
  let duration_adjust ← calculate_duration_adjustment ctx
  let dub_lang := PlayResponse.audio_lang ctx.media
  let sub := jsLookup ctx.subs dub_lang
  let alt_sub := jsLookup ctx.alt_subs dub_lang
  let script_adjust ← calculate_script_adjustment ctx duration_adjust sub alt_sub
  let out := match script_adjust with
    | none => JsNum.num duration_adjust
    | some a => a
  let _g ← PlayResponse.guid ctx.media
  pure out

/-- ScriptInterceptor.format_ok: the script must contain the header token. -/
def format_ok (script : List Char) : Bool :=
  containsSub "Format: Layer,Start,End,".toList script

/-- ScriptInterceptor.adjust_timestr: parse, offset, render. -/
def adjust_timestr (str : List Char) (adjust : JsNum) : Except JsErr (List Char) :=
  (script_parse_time str).map (fun original_ms =>
    script_render_time (original_ms.add adjust))

/-- ScriptInterceptor.adjust_line: a non-Dialogue line passes through;
otherwise fields 1 and 2 of the comma split are rewritten in order, each
rewrite able to throw (fields[1] or fields[2] being undefined reaches
undefined.split inside script_parse_time). -/
def adjust_line (line : List Char) (adjust : JsNum) : Except JsErr (List Char) :=
  if ("Dialogue: ".toList.isPrefixOf line) = false then .ok line
  else
    let fields := splitChar ',' line
    match fields[1]? with
    | none => .error .typeError
    | some f1 => do
      let t1 ← adjust_timestr f1 adjust
      let fields1 := fields.set 1 t1
      match fields1[2]? with
      | none => .error .typeError
      | some f2 => do
        let t2 ← adjust_timestr f2 adjust
        pure (joinChar ',' (fields1.set 2 t2))

/-- ScriptInterceptor.adjust_times: an unrecognized format passes the script
through unchanged; otherwise every CRLF-separated line is adjusted and the
lines are rejoined. -/
def adjust_times (script : List Char) (adjust : JsNum) : Except JsErr (List Char) :=
  if format_ok script = false then .ok script
  else ((splitCRLF script).mapM (fun line => adjust_line line adjust)).map joinCRLF

/-- ScriptInterceptor.oncomplete: compute the adjustment, then rewrite the
body. -/
def script_oncomplete (ctx : ScriptRewriteContext) (body : List Char) :
    Except JsErr (List Char) := do
  let adjust ← calculate_adjustment ctx
  adjust_times body adjust

/-- The possible outcomes of one request in the script URL space, as
observable at the filter. -/
inductive InterceptOutcome where
  | passthrough
  | emptyDisconnect
  | wrote (body : List Char)
  | errored (e : JsErr)
deriving DecidableEq, Repr

/-- One full interception in the script URL space, combining
ScriptInterceptor.listener (registry lookup; no interceptor is constructed
for an unregistered URL and the response passes through), Interceptor.onstop
(empty-buffer disconnect, else oncomplete then write + disconnect) and
ScriptInterceptor.onerror (unregister the URL, then the base class signals
the error and disconnects).  Returns the registry afterwards and the
observable outcome. -/
def script_intercept (reg : List ScriptRewriteContext) (u : String)
    (body : List Char) : List ScriptRewriteContext × InterceptOutcome :=
  match ScriptInterceptor.context_for reg u with
  | none => (reg, .passthrough)
  | some ctx =>
    if body = [] then (reg, .emptyDisconnect)
    else
      match script_oncomplete ctx body with
      | .ok out => (reg, .wrote out)
      | .error e => (ScriptInterceptor.unregister reg u, .errored e)

-- ------------------------------------------------------------------
-- src/src/intercept_play.js: the caption-map reconciliation loop
-- ------------------------------------------------------------------

/-- The expression Object.hasOwnProperty(subs, lang) as written on the two
decision lines of PlayInterceptor.oncomplete.  It invokes hasOwnProperty
with the Object constructor itself as receiver: the property key tested is
String(subs), which for a plain object is the text
open-bracket object space Object close-bracket, lang is ignored, and the
Object constructor has no own property of that name.  The expression is
therefore false for every subs and lang.  (The receiver-correct call
subs.hasOwnProperty(lang), used elsewhere in the same file, would test key
membership.) -/
def jsObjectHasOwnProperty (_subs : SubsMap) (_lang : String) : Bool :=
  false

/-- The evolving state of the forEach loop over alt_subs in
PlayInterceptor.oncomplete: the media object being mutated through set_subs,
the copied list, and the ScriptInterceptor registry. -/
structure ReconcileState where
  media : PlayRaw
  copied : List String
  registry : List ScriptRewriteContext
deriving DecidableEq, Repr

/-- One iteration of the forEach loop of PlayInterceptor.oncomplete (lines
201 to 236): decide copy_sub from the two hasOwnProperty conditions, and if
set, write the alternate entry into the media, record the language, and
register a ScriptRewriteContext for the alternate asset URL.  The context
receives the media object as mutated so far (the source stores a reference
to the live media object). -/
def reconcile_one (subs alt_subs : SubsMap) (dub_lang : String)
    (should_replace_sub : Bool) (duration alt_duration : Except JsErr Int)
    (dub_fetch dub_alt_fetch : Except JsErr (Option (List Char)))
    (acc : ReconcileState) (entry : String × SubInfo) : ReconcileState :=
  let lang := entry.1
  let alt_sub := entry.2
  let copy1 := lang == dub_lang && jsObjectHasOwnProperty subs lang && should_replace_sub
  let copy2 := !(jsObjectHasOwnProperty subs lang)
  if copy1 || copy2 then
    let media1 := PlayResponse.set_subs acc.media lang alt_sub
    let ctx : ScriptRewriteContext :=
      { url := alt_sub.url, media := media1, lang := lang,
        duration := duration, alt_duration := alt_duration,
        dub_fetch := dub_fetch, dub_alt_fetch := dub_alt_fetch,
        subs := subs, alt_subs := alt_subs }
    { media := media1, copied := acc.copied ++ [lang],
      registry := ScriptInterceptor.register acc.registry ctx }
  else acc

/-- The whole forEach loop over Object.keys(alt_subs) (each own key paired
with its value), starting from the intact media, an empty copied list, and
the current registry. -/
def reconcile_subs (media : PlayRaw) (subs alt_subs : SubsMap)
    (dub_lang : String) (should_replace_sub : Bool)
    (duration alt_duration : Except JsErr Int)
    (dub_fetch dub_alt_fetch : Except JsErr (Option (List Char)))
    (registry : List ScriptRewriteContext) : ReconcileState :=
  alt_subs.foldl
    (reconcile_one subs alt_subs dub_lang should_replace_sub
      duration alt_duration dub_fetch dub_alt_fetch)
    { media := media, copied := [], registry := registry }

-- ------------------------------------------------------------------
-- Specification-side predicates and operation alphabets used to state
-- the properties below
-- ------------------------------------------------------------------

/-- A dialogue line of the first script may be paired with one of the second:
its normalized text is long enough (at least 6) and the normalized texts are
exactly equal. -/
def lineEligibleMatch (a b : DialogueLine) : Prop :=
  6 ≤ a.text.length ∧ a.text = b.text

/-- The pair (a, b) sits at positions (i, j) and is the positionally first
eligible match: no earlier line of d1 matches anything in d2, and no earlier
line of d2 matches a. -/
def firstMatchPair (d1 d2 : List DialogueLine) (i j : Nat)
    (a b : DialogueLine) : Prop :=
  d1[i]? = some a ∧ d2[j]? = some b ∧ lineEligibleMatch a b
  ∧ (∀ i2 a2, i2 < i → d1[i2]? = some a2 → ∀ b2 ∈ d2, ¬ lineEligibleMatch a2 b2)
  ∧ (∀ j2 b2, j2 < j → d2[j2]? = some b2 → ¬ lineEligibleMatch a b2)

/-- One operation on the ScriptInterceptor registry. -/
inductive RegOp where
  | add (ctx : ScriptRewriteContext)
  | remove (url : String)

/-- Apply one registry operation. -/
def applyRegOp (reg : List ScriptRewriteContext) : RegOp → List ScriptRewriteContext
  | .add ctx => ScriptInterceptor.register reg ctx
  | .remove url => ScriptInterceptor.unregister reg url

/-- Apply a sequence of registry operations in order. -/
def applyRegOps (reg : List ScriptRewriteContext) (ops : List RegOp) :
    List ScriptRewriteContext :=
  ops.foldl applyRegOp reg

-- ------------------------------------------------------------------
-- Concrete fixtures used by the closed evaluation theorems and witnesses
-- ------------------------------------------------------------------

/-- The pre-existing own caption entry of the C1 scenario. -/
def origSub : SubInfo := ⟨"https://v.vrv.co/orig-en.ass", "ass", "en-US"⟩

/-- The alternate-media caption entry of the C1 scenario. -/
def altSub : SubInfo := ⟨"https://v.vrv.co/alt-en.ass", "ass", "en-US"⟩

/-- A 50000-character caption script, far above the emptiness threshold. -/
def longScript : List Char := List.replicate 50000 'a'

/-- A 7500-character caption script, exactly at the emptiness threshold. -/
def threshScript : List Char := List.replicate 7500 'a'

/-- An en-US dub media descriptor whose versions carry the own and the
alternate GUID, and which already owns an en-US caption entry. -/
def media1 : PlayRaw where
  audioLocale := "en-US"
  versions := [⟨"en-US", "A"⟩, ⟨"ja-JP", "B"⟩]
  subtitles := [("en-US", origSub)]

/-- The C1 scenario: the dub already owns an above-threshold en-US caption
(so the replacement decision is false), and the alternate media offers its
own en-US caption. -/
def reconC1 : ReconcileState :=
  reconcile_subs media1 media1.subtitles [("en-US", altSub)] "en-US" false
    (.ok 100) (.ok 200) (.ok (some longScript)) (.ok (some "alt".toList)) []

/-- The rewrite context that the C1 scenario in fact registers. -/
def ctxC1 : ScriptRewriteContext where
  url := "https://v.vrv.co/alt-en.ass"
  media := PlayResponse.set_subs media1 "en-US" altSub
  lang := "en-US"
  duration := .ok 100
  alt_duration := .ok 200
  dub_fetch := .ok (some longScript)
  dub_alt_fetch := .ok (some "alt".toList)
  subs := media1.subtitles
  alt_subs := [("en-US", altSub)]

/-- The C3 input script: well-formed header token and one Dialogue line. -/
def scriptC3 : List Char :=
  ("Format: Layer,Start,End, Style\r\n" ++
   "Dialogue: 0,0:00:00.01,0:00:00.02,Default,,0,0,0,,Hello there").toList

/-- What the C3 script has become after adjusting by +10 ms and then by
-10 ms: both time fields have collapsed to zero. -/
def scriptC3final : List Char :=
  ("Format: Layer,Start,End, Style\r\n" ++
   "Dialogue: 0,0:00:00.00,0:00:00.00,Default,,0,0,0,,Hello there").toList

/-- A registered context whose interception succeeds: durations resolved,
no dub-language entry in either caption-map snapshot, so the duration-based
offset is used. -/
def ctxC4 : ScriptRewriteContext where
  url := "https://v.vrv.co/x.ass"
  media := media1
  lang := "en-US"
  duration := .ok 0
  alt_duration := .ok 0
  dub_fetch := .ok none
  dub_alt_fetch := .ok none
  subs := []
  alt_subs := []

/-- A registered context whose interception fails: the duration fetch for
the dub video was rejected. -/
def ctxC4bad : ScriptRewriteContext where
  url := "https://v.vrv.co/bad.ass"
  media := media1
  lang := "en-US"
  duration := .error (.jsError "fetch failed")
  alt_duration := .ok 0
  dub_fetch := .ok none
  dub_alt_fetch := .ok none
  subs := []
  alt_subs := []

/-- Witness context for the offset-validation theorem: durations 5000 and
2000, no caption entries, so the duration-based offset 3000 is chosen. -/
def ctxC6 : ScriptRewriteContext where
  url := "https://v.vrv.co/y.ass"
  media := media1
  lang := "en-US"
  duration := .ok 5000
  alt_duration := .ok 2000
  dub_fetch := .ok none
  dub_alt_fetch := .ok none
  subs := []
  alt_subs := []

/-- First witness script for the matcher theorem: a too-short line followed
by a matching long one. -/
def scriptC7a : List Char :=
  ("Dialogue: 0,0:00:01.00,0:00:02.00,Default,,0,0,0,,abc\r\n" ++
   "Dialogue: 0,0:00:05.00,0:00:06.00,Default,,0,0,0,,helloworld").toList

/-- Second witness script for the matcher theorem. -/
def scriptC7b : List Char :=
  ("Dialogue: 0,0:00:03.00,0:00:04.00,Default,,0,0,0,,xyzxyz\r\n" ++
   "Dialogue: 0,0:00:07.00,0:00:08.00,Default,,0,0,0,,helloworld").toList

/-- A media descriptor with no versions, used to populate registry entries
whose content is irrelevant. -/
def emptyMedia : PlayRaw := ⟨"", [], []⟩

/-- The n-th registry fixture context: single-character URLs keep all the
URLs pairwise distinct and cheap to compare. -/
def ctxN (n : Nat) : ScriptRewriteContext where
  url := String.mk [Char.ofNat (48 + n)]
  media := emptyMedia
  lang := ""
  duration := .ok 0
  alt_duration := .ok 0
  dub_fetch := .ok none
  dub_alt_fetch := .ok none
  subs := []
  alt_subs := []

/-- 49 further contexts behind the head ctxN 0, giving a full registry of
50 distinct-URL contexts. -/
def restC9 : List ScriptRewriteContext :=
  (List.range 49).map (fun i => ctxN (i + 1))

/-- Additional fixture pieces for the C3 evaluation: the two lines of
scriptC3 and the final dialogue line. -/
def headerC3 : List Char := "Format: Layer,Start,End, Style".toList

def dialogueC3 : List Char :=
  "Dialogue: 0,0:00:00.01,0:00:00.02,Default,,0,0,0,,Hello there".toList

def dialogueC3final : List Char :=
  "Dialogue: 0,0:00:00.00,0:00:00.00,Default,,0,0,0,,Hello there".toList

/-- The four dialogue lines of the matcher witness scripts, as
script_dialogue_lines parses them. -/
def dlC7a0 : DialogueLine :=
  ⟨"Dialogue: 0,0:00:01.00,0:00:02.00,Default,,0,0,0,,abc".toList,
   "abc".toList, .num 1000⟩

def dlC7a1 : DialogueLine :=
  ⟨"Dialogue: 0,0:00:05.00,0:00:06.00,Default,,0,0,0,,helloworld".toList,
   "helloworld".toList, .num 5000⟩

def dlC7b0 : DialogueLine :=
  ⟨"Dialogue: 0,0:00:03.00,0:00:04.00,Default,,0,0,0,,xyzxyz".toList,
   "xyzxyz".toList, .num 3000⟩

def dlC7b1 : DialogueLine :=
  ⟨"Dialogue: 0,0:00:07.00,0:00:08.00,Default,,0,0,0,,helloworld".toList,
   "helloworld".toList, .num 7000⟩

def dialoguesC7a : List DialogueLine := [dlC7a0, dlC7a1]

def dialoguesC7b : List DialogueLine := [dlC7b0, dlC7b1]

-- ------------------------------------------------------------------
-- Helper lemmas shared by the claim theorems
-- ------------------------------------------------------------------

theorem longScript_length : longScript.length = 50000 := by
  rw [longScript]; exact List.length_replicate 50000 'a'

theorem threshScript_length : threshScript.length = 7500 := by
  rw [threshScript]; exact List.length_replicate 7500 'a'

theorem except_bind_ok {ε α β : Type} (a : α) (f : α → Except ε β) :
    ((Except.ok a : Except ε α) >>= f) = f a := rfl

theorem render_num_0 : script_render_time (.num 0) = "0:00:00.00".toList := by
  simp [script_render_time, render_field, MS_PER_HOUR, MS_PER_MINUTE,
    MS_PER_SECOND, MS_PER_CENTISECOND]
  decide

theorem render_num_10 : script_render_time (.num 10) = "0:00:00.00".toList := by
  simp [script_render_time, render_field, MS_PER_HOUR, MS_PER_MINUTE,
    MS_PER_SECOND, MS_PER_CENTISECOND]
  decide

theorem render_num_20 : script_render_time (.num 20) = "0:00:00.01".toList := by
  simp [script_render_time, render_field, MS_PER_HOUR, MS_PER_MINUTE,
    MS_PER_SECOND, MS_PER_CENTISECOND]
  decide

theorem render_num_30 : script_render_time (.num 30) = "0:00:00.02".toList := by
  simp [script_render_time, render_field, MS_PER_HOUR, MS_PER_MINUTE,
    MS_PER_SECOND, MS_PER_CENTISECOND]
  decide

/-- Behaviour of should_replace_dub_sub on a resolved script promise, for a
media object whose guid lookups succeed. -/
theorem should_replace_eval (raw : PlayRaw) (g ag : String)
    (hg : PlayResponse.guid raw = .ok g) (hag : PlayResponse.alt_guid raw = .ok ag)
    (txt : Option (List Char)) :
    PlayResponse.should_replace_dub_sub raw (.ok txt) =
      .ok (match txt with
        | none => true
        | some t => decide (t.length ≤ SCRIPT_EMPTY_THRESHOLD)) := by
  unfold PlayResponse.should_replace_dub_sub
  rw [hg, hag]
  cases txt with
  | none => rfl
  | some t =>
    show (if t.length > SCRIPT_EMPTY_THRESHOLD then (pure false : Except JsErr Bool)
          else pure true)
        = .ok (decide (t.length ≤ SCRIPT_EMPTY_THRESHOLD))
    by_cases h : t.length > SCRIPT_EMPTY_THRESHOLD
    · rw [if_pos h, decide_eq_false (by omega)]; rfl
    · rw [if_neg h, decide_eq_true (by omega)]; rfl

theorem register_trim_eq_self (l : List ScriptRewriteContext)
    (h : l.length ≤ MAX_INTERCEPT) : register_trim l = l := by
  rw [register_trim]
  simp [Nat.not_lt.mpr h]

/-- Evaluation pieces for the C3 script: adjusting the two concrete
timestamps by +10 ms reproduces them (the lossy renderer happens to map 20
to 0:00:00.01 and 30 to 0:00:00.02), while adjusting by -10 ms collapses
both to 0:00:00.00. -/
theorem ts1_plus10 : adjust_timestr "0:00:00.01".toList (.num 10) = .ok "0:00:00.01".toList := by
  unfold adjust_timestr
  rw [show script_parse_time "0:00:00.01".toList = .ok (.num 10) from by decide]
  show Except.ok (script_render_time ((JsNum.num 10).add (.num 10))) = _
  rw [show (JsNum.num 10).add (.num 10) = .num 20 from by decide, render_num_20]

theorem ts2_plus10 : adjust_timestr "0:00:00.02".toList (.num 10) = .ok "0:00:00.02".toList := by
  unfold adjust_timestr
  rw [show script_parse_time "0:00:00.02".toList = .ok (.num 20) from by decide]
  show Except.ok (script_render_time ((JsNum.num 20).add (.num 10))) = _
  rw [show (JsNum.num 20).add (.num 10) = .num 30 from by decide, render_num_30]

theorem ts1_minus10 : adjust_timestr "0:00:00.01".toList (.num (-10)) = .ok "0:00:00.00".toList := by
  unfold adjust_timestr
  rw [show script_parse_time "0:00:00.01".toList = .ok (.num 10) from by decide]
  show Except.ok (script_render_time ((JsNum.num 10).add (.num (-10)))) = _
  rw [show (JsNum.num 10).add (.num (-10)) = .num 0 from by decide, render_num_0]

theorem ts2_minus10 : adjust_timestr "0:00:00.02".toList (.num (-10)) = .ok "0:00:00.00".toList := by
  unfold adjust_timestr
  rw [show script_parse_time "0:00:00.02".toList = .ok (.num 20) from by decide]
  show Except.ok (script_render_time ((JsNum.num 20).add (.num (-10)))) = _
  rw [show (JsNum.num 20).add (.num (-10)) = .num 10 from by decide, render_num_10]

theorem adjust_line_header (adj : JsNum) : adjust_line headerC3 adj = .ok headerC3 := by
  simp only [adjust_line]
  rw [if_pos (by decide)]

theorem adjust_line_dialogue_plus10 :
    adjust_line dialogueC3 (.num 10) = .ok dialogueC3 := by
  simp only [adjust_line]
  rw [if_neg (by decide)]
  rw [show (splitChar ',' dialogueC3)[1]? = some "0:00:00.01".toList from by decide]
  simp only []
  rw [ts1_plus10, except_bind_ok]
  rw [show ((splitChar ',' dialogueC3).set 1 "0:00:00.01".toList)[2]?
        = some "0:00:00.02".toList from by decide]
  simp only []
  rw [ts2_plus10, except_bind_ok]
  decide

theorem adjust_line_dialogue_minus10 :
    adjust_line dialogueC3 (.num (-10)) = .ok dialogueC3final := by
  simp only [adjust_line]
  rw [if_neg (by decide)]
  rw [show (splitChar ',' dialogueC3)[1]? = some "0:00:00.01".toList from by decide]
  simp only []
  rw [ts1_minus10, except_bind_ok]
  rw [show ((splitChar ',' dialogueC3).set 1 "0:00:00.00".toList)[2]?
        = some "0:00:00.02".toList from by decide]
  simp only []
  rw [ts2_minus10, except_bind_ok]
  decide

theorem adjust_times_plus10 : adjust_times scriptC3 (.num 10) = .ok scriptC3 := by
  simp only [adjust_times]
  rw [if_neg (by decide)]
  rw [show splitCRLF scriptC3 = [headerC3, dialogueC3] from by decide]
  rw [List.mapM_cons, List.mapM_cons, List.mapM_nil]
  rw [adjust_line_header, except_bind_ok, adjust_line_dialogue_plus10, except_bind_ok]
  decide

theorem adjust_times_minus10 : adjust_times scriptC3 (.num (-10)) = .ok scriptC3final := by
  simp only [adjust_times]
  rw [if_neg (by decide)]
  rw [show splitCRLF scriptC3 = [headerC3, dialogueC3] from by decide]
  rw [List.mapM_cons, List.mapM_cons, List.mapM_nil]
  rw [adjust_line_header, except_bind_ok, adjust_line_dialogue_minus10, except_bind_ok]
  decide

-- ------------------------------------------------------------------
-- Claim theorems
-- ------------------------------------------------------------------

/-- C2: the time codec does not round-trip.  The valid timestamp string
0:00:00.01 parses to 10 ms, but rendering 10 ms yields 0:00:00.00 (the
render loops use a strict greater-than guard and so drop one final unit at
every exact boundary), which parses back to 0 ms, not 10 ms.  This refutes
both round-trip forms of the claim at the concrete value m = 10. -/
theorem c2_time_codec_roundtrip_fails :
    script_parse_time "0:00:00.01".toList = .ok (.num 10)
    ∧ script_render_time (.num 10) = "0:00:00.00".toList
    ∧ script_parse_time (script_render_time (.num 10)) = .ok (.num 0) := by
  refine ⟨by decide, render_num_10, ?_⟩
  rw [render_num_10]
  decide

/-- C3: offset inversion fails.  On a well-formed script whose Dialogue
line runs from 0:00:00.01 to 0:00:00.02, adjusting by +10 ms and then by
-10 ms does not restore the original time fields: the composition yields
0:00:00.00 for both fields, because the lossy renderer collapses exact
boundary values.  All intermediate times stay non-negative, so the input
lies squarely inside the quantified domain of the claim. -/
theorem c3_offset_inversion_fails :
    adjust_times scriptC3 (.num 10) = .ok scriptC3
    ∧ (adjust_times scriptC3 (.num 10) >>= fun t => adjust_times t (.num (-10)))
        = .ok scriptC3final
    ∧ scriptC3final ≠ scriptC3 := by
  refine ⟨adjust_times_plus10, ?_, by decide⟩
  rw [adjust_times_plus10, except_bind_ok, adjust_times_minus10]

/-- C5: replacement threshold.  For every media whose guid lookups succeed,
should_replace_dub_sub resolves to true when the dub-language caption text
is absent; when the text is present it resolves to true exactly when the
length is at or below SCRIPT_EMPTY_THRESHOLD = 7500, and to false exactly
when the length exceeds it — so it is true at length 7500 and false at
length 7501. -/
theorem c5_replacement_threshold (raw : PlayRaw) (g ag : String)
    (hg : PlayResponse.guid raw = .ok g) (hag : PlayResponse.alt_guid raw = .ok ag)
    (txt : Option (List Char)) :
    (txt = none → PlayResponse.should_replace_dub_sub raw (.ok txt) = .ok true)
    ∧ (∀ t, txt = some t →
        (PlayResponse.should_replace_dub_sub raw (.ok txt) = .ok true ↔
          t.length ≤ SCRIPT_EMPTY_THRESHOLD))
    ∧ (∀ t, txt = some t →
        (PlayResponse.should_replace_dub_sub raw (.ok txt) = .ok false ↔
          SCRIPT_EMPTY_THRESHOLD < t.length)) := by
  have he := should_replace_eval raw g ag hg hag txt
  refine ⟨?_, ?_, ?_⟩
  · intro h; subst h; simpa using he
  · intro t h; subst h
    rw [he]
    simp [decide_eq_true_eq]
  · intro t h; subst h
    rw [he]
    simp [decide_eq_false_iff_not, Nat.not_le]

/-- C5 witness: for the concrete dub media and a caption text of length
exactly 7500, the replacement decision is true. -/
theorem c5_replacement_threshold_witness :
    PlayResponse.should_replace_dub_sub media1 (.ok (some threshScript)) = .ok true := by
  have h := (c5_replacement_threshold media1 "A" "B" rfl rfl (some threshScript)).2.1
    threshScript rfl
  exact h.mpr (by rw [threshScript_length]; norm_num [SCRIPT_EMPTY_THRESHOLD])

/-- C10: empty-body pass-through.  When end-of-stream fires with an empty
accumulated buffer, onstop only disconnects the filter: the oncomplete
transform is never invoked (the result does not depend on it), nothing is
written, and no error is signalled. -/
theorem c10_empty_body_passthrough
    (oncomplete : List Char → Except JsErr (List Char))
    (onerror : JsErr → FilterState → FilterState) (st : FilterState)
    (h : st.buf = []) :
    interceptor_onstop oncomplete onerror st = { st with disconnected := true } := by
  simp only [interceptor_onstop]
  rw [if_pos h]

/-- C10 witness: a concrete empty-buffer state under the identity transform
and the base error handler. -/
theorem c10_empty_body_passthrough_witness :
    interceptor_onstop (fun b => .ok b) (fun _ st => interceptor_onerror st)
      ⟨[], [], false, false⟩ = ⟨[], [], true, false⟩ :=
  c10_empty_body_passthrough (fun b => .ok b) (fun _ st => interceptor_onerror st)
    ⟨[], [], false, false⟩ rfl

/-- C1: the caption-map reconciliation clobbers a good dub caption.  In the
C1 scenario the dub media already owns an en-US caption whose script is
50000 characters long, so the replacement decision is false; the claim says
the en-US entry must stay unchanged and no pending rewrite may be
registered.  The code nevertheless replaces the entry with the alternate
one and registers a rewrite context, because Object.hasOwnProperty(subs,
lang) is false for every input (see jsObjectHasOwnProperty), which makes
the missing-language rule fire for every language of the alternate map.
This also contradicts the inline comments of the loop itself. -/
theorem c1_dub_caption_clobbered :
    PlayResponse.should_replace_dub_sub media1 (.ok (some longScript)) = .ok false
    ∧ reconC1.media.subtitles = [("en-US", altSub)]
    ∧ altSub ≠ origSub
    ∧ reconC1.copied = ["en-US"]
    ∧ reconC1.registry = [ctxC1] := by
  refine ⟨?_, rfl, by decide, rfl, ?_⟩
  · rw [should_replace_eval media1 "A" "B" rfl rfl]
    show Except.ok (decide (longScript.length ≤ SCRIPT_EMPTY_THRESHOLD)) = Except.ok false
    rw [decide_eq_false]
    rw [longScript_length]
    norm_num [SCRIPT_EMPTY_THRESHOLD]
  · show ScriptInterceptor.register [] ctxC1 = [ctxC1]
    rw [ScriptInterceptor.register, register_trim_eq_self]
    · rfl
    · simp [MAX_INTERCEPT]

/-- C4 counterexample: a successfully rewritten caption response does not
remove its registry entry.  After a successful interception the registry
still holds the context, a lookup on the URL still finds it, and a second
request for the same URL is rewritten again instead of passing through —
refuting the removed-on-success half of the claim. -/
theorem c4_success_keeps_registry_entry :
    script_intercept [ctxC4] "https://v.vrv.co/x.ass" "x".toList
      = ([ctxC4], .wrote "x".toList)
    ∧ ScriptInterceptor.context_for [ctxC4] "https://v.vrv.co/x.ass" = some ctxC4
    ∧ (script_intercept
        ((script_intercept [ctxC4] "https://v.vrv.co/x.ass" "x".toList).1)
        "https://v.vrv.co/x.ass" "x".toList).2 = .wrote "x".toList := by
  decide

/-- C4 amended: a registry entry is removed only on error.  When an
interception of a registered URL fails, the entry is unregistered before
the error is signalled, so a later request for that URL passes through
untouched; on success, however, the registry is left unchanged and the
entry remains consumable again. -/
theorem c4_amended_unregister_on_error_only (reg : List ScriptRewriteContext)
    (u : String) (ctx : ScriptRewriteContext) (body : List Char)
    (hctx : ScriptInterceptor.context_for reg u = some ctx) (hbody : body ≠ []) :
    (∀ out, script_oncomplete ctx body = .ok out →
      script_intercept reg u body = (reg, .wrote out))
    ∧ (∀ e, script_oncomplete ctx body = .error e →
      script_intercept reg u body = (ScriptInterceptor.unregister reg u, .errored e)
      ∧ ScriptInterceptor.context_for (ScriptInterceptor.unregister reg u) u = none
      ∧ ∀ body2, script_intercept (ScriptInterceptor.unregister reg u) u body2
          = (ScriptInterceptor.unregister reg u, .passthrough)) := by
  have hnone : ScriptInterceptor.context_for (ScriptInterceptor.unregister reg u) u = none := by
    unfold ScriptInterceptor.context_for ScriptInterceptor.unregister
    rw [List.find?_eq_none]
    intro x hx
    have hmem := List.of_mem_filter hx
    simp at hmem
    simp [hmem]
  constructor
  · intro out hok
    simp only [script_intercept, hctx]
    rw [if_neg hbody, hok]
  · intro e herr
    refine ⟨?_, hnone, ?_⟩
    · simp only [script_intercept, hctx]
      rw [if_neg hbody, herr]
    · intro body2
      simp only [script_intercept, hnone]

/-- C4 amended witness: a concrete registered context whose duration fetch
was rejected; the interception errors, the entry is removed, and a retry
passes through. -/
theorem c4_amended_witness :
    script_intercept [ctxC4bad] "https://v.vrv.co/bad.ass" "x".toList
      = (ScriptInterceptor.unregister [ctxC4bad] "https://v.vrv.co/bad.ass",
         .errored (.jsError "fetch failed"))
    ∧ ScriptInterceptor.context_for
        (ScriptInterceptor.unregister [ctxC4bad] "https://v.vrv.co/bad.ass")
        "https://v.vrv.co/bad.ass" = none := by
  have h := (c4_amended_unregister_on_error_only [ctxC4bad] "https://v.vrv.co/bad.ass"
      ctxC4bad "x".toList (by decide) (by decide)).2 (.jsError "fetch failed") (by decide)
  exact ⟨h.1, h.2.1⟩

/-- Splitting on a separator that does not occur returns the whole string
as the single piece. -/
theorem splitChar_of_not_mem (sep : Char) (l : List Char) (h : sep ∉ l) :
    splitChar sep l = [l] := by
  induction l with
  | nil => rfl
  | cons a rest ih =>
    have ha : ¬(a = sep) := fun hh => h (by rw [hh]; exact List.mem_cons_self sep rest)
    have hrest : sep ∉ rest := fun hh => h (List.mem_cons_of_mem a hh)
    simp only [splitChar]
    rw [ih hrest, if_neg ha]

theorem jsnum_add_nan (x : JsNum) : x.add .nan = .nan := by cases x <;> rfl

theorem jsnum_mul_nan_left (y : JsNum) : JsNum.mul .nan y = .nan := by cases y <;> rfl

/-- C8 counterexample: a timestamp with the colon structure but no period
does not fail — parse returns the number NaN.  The claim says every input
without the period structure fails with an error. -/
theorem c8_parse_time_no_period_returns_nan :
    script_parse_time "1:02:03".toList = .ok .nan := by decide

/-- C8 amended: script_parse_time fails with a TypeError exactly on inputs
with fewer than three colon-separated fields (the third field being
undefined makes the split call on it throw); when the colon structure is
present but the seconds field holds no period, parsing does not fail and
instead returns NaN (the missing centisecond field flows through Number()
as NaN and poisons the sum). -/
theorem c8_parse_time_amended (s : List Char) :
    ((splitChar ':' s).length < 3 → script_parse_time s = .error .typeError)
    ∧ (∀ f2, (splitChar ':' s)[2]? = some f2 → '.' ∉ f2 →
        script_parse_time s = .ok .nan) := by
  constructor
  · intro h
    simp only [script_parse_time]
    rw [List.getElem?_eq_none (by omega)]
  · intro f2 h2 hdot
    simp only [script_parse_time]
    rw [h2]
    simp only []
    rw [splitChar_of_not_mem '.' f2 hdot]
    show Except.ok (JsNum.add _ ((jsNumber ([f2] : List (List Char))[1]?).mul
      (.num MS_PER_CENTISECOND))) = Except.ok JsNum.nan
    rw [show ([f2] : List (List Char))[1]? = none from rfl]
    show Except.ok (JsNum.add _ ((JsNum.nan).mul (.num MS_PER_CENTISECOND))) = _
    rw [jsnum_mul_nan_left, jsnum_add_nan]

/-- C8 amended witness: one input with a single colon (throws) and one with
two colons but no period (returns NaN). -/
theorem c8_parse_time_amended_witness :
    script_parse_time "0:00".toList = .error .typeError
    ∧ script_parse_time "0:00:05".toList = .ok .nan := by
  have h1 := (c8_parse_time_amended "0:00".toList).1 (by decide)
  have h2 := (c8_parse_time_amended "0:00:05".toList).2 "05".toList (by decide) (by decide)
  exact ⟨h1, h2⟩

theorem except_bind_error {ε α β : Type} (e : ε) (f : α → Except ε β) :
    ((Except.error e : Except ε α) >>= f) = .error e := rfl

theorem calculate_duration_eval (ctx : ScriptRewriteContext) (du ds : Int)
    (hdu : ctx.duration = .ok du) (hds : ctx.alt_duration = .ok ds) :
    calculate_duration_adjustment ctx = .ok (du - ds) := by
  simp only [calculate_duration_adjustment, hdu, hds, except_bind_ok]
  rfl

theorem calculate_adjustment_eval (ctx : ScriptRewriteContext) (du ds : Int)
    (g : String) (X : Option JsNum)
    (hdu : ctx.duration = .ok du) (hds : ctx.alt_duration = .ok ds)
    (hg : PlayResponse.guid ctx.media = .ok g)
    (hsa : calculate_script_adjustment ctx (du - ds)
      (jsLookup ctx.subs (PlayResponse.audio_lang ctx.media))
      (jsLookup ctx.alt_subs (PlayResponse.audio_lang ctx.media)) = .ok X) :
    calculate_adjustment ctx
      = .ok (match X with | none => JsNum.num (du - ds) | some a => a) := by
  simp only [calculate_adjustment, calculate_duration_eval ctx du ds hdu hds,
    except_bind_ok]
  simp only [hsa, except_bind_ok]
  simp only [hg, except_bind_ok]
  cases X <;> rfl

theorem script_adjustment_some_inv (ctx : ScriptRewriteContext) (d : Int)
    (sub alt : Option SubInfo) (a : Int)
    (h : calculate_script_adjustment ctx d sub alt = .ok (some (.num a))) :
    |a - d| ≤ SCRIPT_MAX_ADJUST := by
  rcases sub with _ | si
  · simp [calculate_script_adjustment] at h
  rcases alt with _ | ai
  · simp [calculate_script_adjustment] at h
  simp only [calculate_script_adjustment] at h
  split at h
  · simp at h
  · cases hf1 : ctx.dub_fetch with
    | error e => simp only [hf1, except_bind_error] at h; simp at h
    | ok os1 =>
      simp only [hf1, except_bind_ok] at h
      cases hf2 : ctx.dub_alt_fetch with
      | error e => simp only [hf2, except_bind_error] at h; simp at h
      | ok os2 =>
        simp only [hf2, except_bind_ok] at h
        rcases os1 with _ | s1
        · simp at h
        rcases os2 with _ | s2
        · simp at h
        simp only [] at h
        cases hta : script_timing_adjust s1 s2 with
        | error e => simp only [hta, except_bind_error] at h; simp at h
        | ok oadj =>
          simp only [hta, except_bind_ok] at h
          rcases oadj with _ | adj
          · simp at h
          simp only [] at h
          split at h
          · simp at h
          · next hneg =>
            have hadj : adj = .num a := by simpa using h
            subst hadj
            simp [jsAbsSubGt] at hneg
            omega

/-- C6: offset validation.  With both durations resolved (duration offset
du - ds) and the media guid resolvable, the script-comparison offset, when
it is computed as an integer, is adopted as the final adjustment exactly
when its absolute distance from the duration offset is at most
SCRIPT_MAX_ADJUST = 60000 ms: an adopted script offset is always within the
bound, a computed offset beyond the bound is discarded, and in every case
with no script offset available (a sub descriptor missing, a format other
than ass, or no matching dialogue pair) the duration offset is used. -/
theorem c6_offset_validation (ctx : ScriptRewriteContext) (du ds : Int) (g : String)
    (hdu : ctx.duration = .ok du) (hds : ctx.alt_duration = .ok ds)
    (hg : PlayResponse.guid ctx.media = .ok g) :
    (∀ a : Int,
      calculate_script_adjustment ctx (du - ds)
        (jsLookup ctx.subs (PlayResponse.audio_lang ctx.media))
        (jsLookup ctx.alt_subs (PlayResponse.audio_lang ctx.media)) = .ok (some (.num a)) →
      calculate_adjustment ctx = .ok (.num a) ∧ |a - (du - ds)| ≤ SCRIPT_MAX_ADJUST)
    ∧ (calculate_script_adjustment ctx (du - ds)
        (jsLookup ctx.subs (PlayResponse.audio_lang ctx.media))
        (jsLookup ctx.alt_subs (PlayResponse.audio_lang ctx.media)) = .ok none →
      calculate_adjustment ctx = .ok (.num (du - ds)))
    ∧ (∀ (d : Int) (sub alt : Option SubInfo),
        (sub = none ∨ alt = none
          ∨ (∃ si, sub = some si ∧ si.format ≠ "ass")
          ∨ (∃ si, alt = some si ∧ si.format ≠ "ass")) →
        calculate_script_adjustment ctx d sub alt = .ok none)
    ∧ (∀ (d : Int) (sub alt : Option SubInfo) (s1 s2 : List Char),
        ctx.dub_fetch = .ok (some s1) → ctx.dub_alt_fetch = .ok (some s2) →
        script_timing_adjust s1 s2 = .ok none →
        calculate_script_adjustment ctx d sub alt = .ok none)
    ∧ (∀ (d : Int) (sub alt : Option SubInfo) (s1 s2 : List Char) (a : Int),
        ctx.dub_fetch = .ok (some s1) → ctx.dub_alt_fetch = .ok (some s2) →
        script_timing_adjust s1 s2 = .ok (some (.num a)) →
        SCRIPT_MAX_ADJUST < |a - d| →
        calculate_script_adjustment ctx d sub alt = .ok none)
    ∧ (∀ (si ai : SubInfo) (s1 s2 : List Char) (a : Int),
        jsLookup ctx.subs (PlayResponse.audio_lang ctx.media) = some si →
        si.format = "ass" →
        jsLookup ctx.alt_subs (PlayResponse.audio_lang ctx.media) = some ai →
        ai.format = "ass" →
        ctx.dub_fetch = .ok (some s1) → ctx.dub_alt_fetch = .ok (some s2) →
        script_timing_adjust s1 s2 = .ok (some (.num a)) →
        |a - (du - ds)| ≤ SCRIPT_MAX_ADJUST →
        calculate_adjustment ctx = .ok (.num a)) := by
  refine ⟨?_, ?_, ?_, ?_, ?_, ?_⟩
  · intro a h
    exact ⟨by simpa using calculate_adjustment_eval ctx du ds g (some (.num a)) hdu hds hg h,
      script_adjustment_some_inv ctx (du - ds) _ _ a h⟩
  · intro h
    simpa using calculate_adjustment_eval ctx du ds g none hdu hds hg h
  · intro d sub alt hcase
    rcases sub with _ | si
    · cases alt <;> rfl
    rcases alt with _ | ai
    · rfl
    rcases hcase with h | h | ⟨si2, hsi, hfmt⟩ | ⟨ai2, hai, hfmt⟩
    · exact absurd h (by simp)
    · exact absurd h (by simp)
    · have hss : si = si2 := by simpa using hsi
      subst hss
      simp only [calculate_script_adjustment]
      rw [if_pos (Or.inl hfmt)]
    · have haa : ai = ai2 := by simpa using hai
      subst haa
      simp only [calculate_script_adjustment]
      rw [if_pos (Or.inr hfmt)]
  · intro d sub alt s1 s2 hf1 hf2 hta
    rcases sub with _ | si
    · cases alt <;> rfl
    rcases alt with _ | ai
    · rfl
    simp only [calculate_script_adjustment]
    split
    · rfl
    · simp only [hf1, except_bind_ok, hf2, hta]
  · intro d sub alt s1 s2 a hf1 hf2 hta hfar
    rcases sub with _ | si
    · cases alt <;> rfl
    rcases alt with _ | ai
    · rfl
    simp only [calculate_script_adjustment]
    split
    · rfl
    · simp only [hf1, except_bind_ok, hf2, hta]
      rw [if_pos]
      simp [jsAbsSubGt]
      omega
  · intro si ai s1 s2 a hLsi hfmt1 hLai hfmt2 hf1 hf2 hta hnear
    have hsa : calculate_script_adjustment ctx (du - ds)
        (jsLookup ctx.subs (PlayResponse.audio_lang ctx.media))
        (jsLookup ctx.alt_subs (PlayResponse.audio_lang ctx.media))
          = .ok (some (.num a)) := by
      rw [hLsi, hLai]
      simp only [calculate_script_adjustment]
      rw [if_neg (by simp [hfmt1, hfmt2])]
      simp only [hf1, except_bind_ok, hf2, hta]
      rw [if_neg]
      simp [jsAbsSubGt]
      omega
    simpa using calculate_adjustment_eval ctx du ds g (some (.num a)) hdu hds hg hsa

/-- C6 witness: a context with durations 5000 and 2000 and no caption
descriptors; the duration offset 3000 is chosen. -/
theorem c6_offset_validation_witness :
    calculate_adjustment ctxC6 = .ok (.num 3000) := by
  have h := c6_offset_validation ctxC6 5000 2000 "A" rfl rfl rfl
  have hnone : calculate_script_adjustment ctxC6 (5000 - 2000)
      (jsLookup ctxC6.subs (PlayResponse.audio_lang ctxC6.media))
      (jsLookup ctxC6.alt_subs (PlayResponse.audio_lang ctxC6.media)) = .ok none :=
    h.2.2.1 (5000 - 2000)
      (jsLookup ctxC6.subs (PlayResponse.audio_lang ctxC6.media))
      (jsLookup ctxC6.alt_subs (PlayResponse.audio_lang ctxC6.media)) (Or.inl rfl)
  have h2 := h.2.1 hnone
  rw [show (5000 - 2000 : Int) = 3000 from by norm_num] at h2
  exact h2

theorem register_trim_length (l : List ScriptRewriteContext) :
    (register_trim l).length ≤ MAX_INTERCEPT := by
  induction l using register_trim.induct with
  | case1 l h ih => rw [register_trim, if_pos h]; exact ih
  | case2 l h => rw [register_trim, if_neg h]; omega

theorem applyRegOps_length (reg : List ScriptRewriteContext) (ops : List RegOp)
    (h : reg.length ≤ MAX_INTERCEPT) :
    (applyRegOps reg ops).length ≤ MAX_INTERCEPT := by
  induction ops generalizing reg with
  | nil => exact h
  | cons op rest ih =>
    cases op with
    | add c => exact ih _ (register_trim_length _)
    | remove u => exact ih _ (le_trans (List.length_filter_le _ _) h)

theorem context_for_self (l : List ScriptRewriteContext)
    (hn : (l.map (fun x => x.url)).Nodup) (x : ScriptRewriteContext) (hx : x ∈ l) :
    ScriptInterceptor.context_for l x.url = some x := by
  induction l with
  | nil => cases hx
  | cons h t ih =>
    rw [List.map_cons, List.nodup_cons] at hn
    rcases List.mem_cons.mp hx with rfl | hxt
    · unfold ScriptInterceptor.context_for
      rw [List.find?_cons_of_pos]
      simp
    · have hne : h.url ≠ x.url :=
        fun he => hn.1 (he ▸ List.mem_map_of_mem (fun y => y.url) hxt)
      unfold ScriptInterceptor.context_for at ih ⊢
      rw [List.find?_cons_of_neg]
      · exact ih hn.2 hxt
      · simp [hne]

/-- C9: registry bound and eviction order.  First, after any sequence of
register and unregister operations starting from the empty registry, at
most MAX_INTERCEPT = 50 contexts are held.  Second, registering a 51st
context onto a full registry of 50 distinct-URL contexts drops exactly the
first-registered (frontmost) one: the result is the 49 younger contexts
followed by the new one, a context_for lookup on the evicted URL finds
nothing, and every one of the 50 remaining contexts is still found by a
lookup on its URL. -/
theorem c9_registry_bound_and_eviction :
    (∀ ops : List RegOp, (applyRegOps [] ops).length ≤ MAX_INTERCEPT)
    ∧ (∀ (c0 : ScriptRewriteContext) (rest : List ScriptRewriteContext)
         (c : ScriptRewriteContext),
        (c0 :: rest).length = MAX_INTERCEPT →
        (((c0 :: rest) ++ [c]).map (fun x => x.url)).Nodup →
        ScriptInterceptor.register (c0 :: rest) c = rest ++ [c]
        ∧ ScriptInterceptor.context_for
            (ScriptInterceptor.register (c0 :: rest) c) c0.url = none
        ∧ ∀ x ∈ rest ++ [c],
            ScriptInterceptor.context_for
              (ScriptInterceptor.register (c0 :: rest) c) x.url = some x) := by
  constructor
  · intro ops
    exact applyRegOps_length [] ops (by simp [MAX_INTERCEPT])
  · intro c0 rest c hlen hnodup
    have hA : ScriptInterceptor.register (c0 :: rest) c = rest ++ [c] := by
      rw [ScriptInterceptor.register]
      rw [register_trim]
      rw [if_pos (by simp at hlen ⊢; omega)]
      rw [show ((c0 :: rest) ++ [c]).tail = rest ++ [c] from by simp]
      apply register_trim_eq_self
      simp at hlen ⊢
      omega
    have hmap : ((c0 :: rest) ++ [c]).map (fun x => x.url)
        = c0.url :: ((rest ++ [c]).map (fun x => x.url)) := by simp
    rw [hmap, List.nodup_cons] at hnodup
    refine ⟨hA, ?_, ?_⟩
    · rw [hA]
      unfold ScriptInterceptor.context_for
      rw [List.find?_eq_none]
      intro x hx
      have hxm : x.url ∈ (rest ++ [c]).map (fun y => y.url) :=
        List.mem_map_of_mem (fun y => y.url) hx
      simp only [beq_iff_eq]
      intro he
      exact hnodup.1 (he ▸ hxm)
    · intro x hx
      rw [hA]
      exact context_for_self (rest ++ [c]) hnodup.2 x hx

/-- C9 witness: a two-operation history, and the concrete full registry of
50 single-character-URL contexts receiving a 51st. -/
theorem c9_registry_bound_and_eviction_witness :
    (applyRegOps [] [RegOp.add (ctxN 0), RegOp.remove "x"]).length ≤ MAX_INTERCEPT
    ∧ ScriptInterceptor.register (ctxN 0 :: restC9) (ctxN 50) = restC9 ++ [ctxN 50]
    ∧ ScriptInterceptor.context_for
        (ScriptInterceptor.register (ctxN 0 :: restC9) (ctxN 50)) (ctxN 0).url = none := by
  have h1 := c9_registry_bound_and_eviction.1 [RegOp.add (ctxN 0), RegOp.remove "x"]
  have h2 := c9_registry_bound_and_eviction.2 (ctxN 0) restC9 (ctxN 50)
    (by decide) (by decide)
  exact ⟨h1, h2.1, h2.2.1⟩

theorem find_text_some_iff (t : List Char) (d2 : List DialogueLine) (b : DialogueLine) :
    d2.find? (fun l2 => t == l2.text) = some b ↔
      ∃ j : Nat, d2[j]? = some b ∧ t = b.text
        ∧ ∀ (j2 : Nat) (b2 : DialogueLine), j2 < j → d2[j2]? = some b2 → t ≠ b2.text := by
  induction d2 with
  | nil => simp
  | cons h tl ih =>
    by_cases hp : t = h.text
    · rw [List.find?_cons_of_pos tl (by simp [hp])]
      constructor
      · intro he
        have hb : h = b := by simpa using he
        subst hb
        exact ⟨0, by simp, hp, by intro j2 b2 hlt; omega⟩
      · rintro ⟨j, hj, htb, hmin⟩
        cases j with
        | zero =>
          have : h = b := by simpa using hj
          rw [this]
        | succ k =>
          exact absurd hp (hmin 0 h (by omega) (by simp))
    · rw [List.find?_cons_of_neg tl (by simp [hp])]
      rw [ih]
      constructor
      · rintro ⟨j, hj, htb, hmin⟩
        refine ⟨j + 1, by simpa using hj, htb, ?_⟩
        intro j2 b2 hlt h2
        cases j2 with
        | zero =>
          have : h = b2 := by simpa using h2
          rw [← this]
          exact hp
        | succ k =>
          exact hmin k b2 (by omega) (by simpa using h2)
      · rintro ⟨j, hj, htb, hmin⟩
        cases j with
        | zero =>
          have : h = b := by simpa using hj
          exact absurd (this ▸ htb) hp
        | succ k =>
          refine ⟨k, by simpa using hj, htb, ?_⟩
          intro j2 b2 hlt h2
          exact hmin (j2 + 1) b2 (by omega) (by simpa using h2)

theorem find_text_none_iff (t : List Char) (d2 : List DialogueLine) :
    d2.find? (fun l2 => t == l2.text) = none ↔ ∀ b ∈ d2, t ≠ b.text := by
  rw [List.find?_eq_none]
  simp

theorem firstMatchPair_cons_of_no_match (l1 : DialogueLine)
    (rest d2 : List DialogueLine)
    (hno : ∀ b2 ∈ d2, ¬ lineEligibleMatch l1 b2) (a b : DialogueLine) :
    (∃ i j, firstMatchPair (l1 :: rest) d2 i j a b)
      ↔ (∃ i j, firstMatchPair rest d2 i j a b) := by
  constructor
  · rintro ⟨i, j, hia, hjb, hm, hminA, hminB⟩
    cases i with
    | zero =>
      have hla : l1 = a := by simpa using hia
      exact absurd (hla ▸ hm) (hno b (List.getElem?_mem hjb))
    | succ i2 =>
      refine ⟨i2, j, by simpa using hia, hjb, hm, ?_, hminB⟩
      intro i3 a3 hlt h3
      exact hminA (i3 + 1) a3 (by omega) (by simpa using h3)
  · rintro ⟨i, j, hia, hjb, hm, hminA, hminB⟩
    refine ⟨i + 1, j, by simpa using hia, hjb, hm, ?_, hminB⟩
    intro i3 a3 hlt h3
    cases i3 with
    | zero =>
      have : l1 = a3 := by simpa using h3
      exact this ▸ hno
    | succ k =>
      exact hminA k a3 (by omega) (by simpa using h3)

theorem script_match_line_none_iff (d1 d2 : List DialogueLine) :
    script_match_line d1 d2 = none
      ↔ ∀ a ∈ d1, ∀ b ∈ d2, ¬ lineEligibleMatch a b := by
  induction d1 with
  | nil => simp [script_match_line]
  | cons l1 rest ih =>
    simp only [script_match_line]
    by_cases hlen : l1.text.length < 6
    · rw [if_pos hlen, ih]
      constructor
      · intro h a ha b hb
        rcases List.mem_cons.mp ha with rfl | hat
        · rintro ⟨h6, _⟩; omega
        · exact h a hat b hb
      · intro h a ha b hb
        exact h a (List.mem_cons_of_mem l1 ha) b hb
    · rw [if_neg hlen]
      cases hf : (d2.find? fun l2 => l1.text == l2.text) with
      | some b0 =>
        have hb0mem : b0 ∈ d2 := List.mem_of_find?_eq_some hf
        have hb0eq : l1.text = b0.text := by
          have := List.find?_some hf
          simpa using this
        constructor
        · intro h; exact absurd h (by simp)
        · intro h
          exact absurd ⟨by omega, hb0eq⟩ (h l1 (List.mem_cons_self l1 rest) b0 hb0mem)
      | none =>
        rw [ih]
        have hno : ∀ b2 ∈ d2, ¬ lineEligibleMatch l1 b2 := by
          intro b2 hb2 hel
          exact (find_text_none_iff l1.text d2).mp hf b2 hb2 hel.2
        constructor
        · intro h a ha b hb
          rcases List.mem_cons.mp ha with rfl | hat
          · exact hno b hb
          · exact h a hat b hb
        · intro h a ha b hb
          exact h a (List.mem_cons_of_mem l1 ha) b hb

theorem script_match_line_some_iff (d1 d2 : List DialogueLine) (a b : DialogueLine) :
    script_match_line d1 d2 = some (a, b)
      ↔ ∃ i j, firstMatchPair d1 d2 i j a b := by
  induction d1 with
  | nil => simp [script_match_line, firstMatchPair]
  | cons l1 rest ih =>
    simp only [script_match_line]
    by_cases hlen : l1.text.length < 6
    · rw [if_pos hlen, ih]
      refine (firstMatchPair_cons_of_no_match l1 rest d2 ?_ a b).symm
      intro b2 hb2 hel
      have := hel.1
      omega
    · rw [if_neg hlen]
      cases hf : (d2.find? fun l2 => l1.text == l2.text) with
      | some b0 =>
        obtain ⟨j0, hj0, htxt0, hmin0⟩ := (find_text_some_iff l1.text d2 b0).mp hf
        constructor
        · intro h
          have hab : l1 = a ∧ b0 = b := by simpa using h
          obtain ⟨rfl, rfl⟩ := hab
          refine ⟨0, j0, by simp, hj0, ⟨by omega, htxt0⟩, ?_, ?_⟩
          · intro i2 a2 hlt
            omega
          · intro j2 b2 hlt h2 hel
            exact hmin0 j2 b2 hlt h2 hel.2
        · rintro ⟨i, j, hia, hjb, hm, hminA, hminB⟩
          cases i with
          | succ i2 =>
            have hb0mem : b0 ∈ d2 := List.mem_of_find?_eq_some hf
            have helig : lineEligibleMatch l1 b0 := ⟨by omega, htxt0⟩
            exact absurd helig (hminA 0 l1 (by omega) (by simp) b0 hb0mem)
          | zero =>
            have hal : l1 = a := by simpa using hia
            rcases Nat.lt_trichotomy j j0 with hlt | heq | hgt
            · exact absurd hm.2 (hal ▸ hmin0 j b hlt hjb)
            · subst heq
              have hbb : b = b0 := by
                rw [hj0] at hjb
                simpa using hjb.symm
              rw [hal, hbb]
            · have helig : lineEligibleMatch a b0 := ⟨hal ▸ (by omega), hal ▸ htxt0⟩
              exact absurd helig (hminB j0 b0 hgt hj0)
      | none =>
        rw [ih]
        refine (firstMatchPair_cons_of_no_match l1 rest d2 ?_ a b).symm
        intro b2 hb2 hel
        exact (find_text_none_iff l1.text d2).mp hf b2 hb2 hel.2

/-- C7: matcher tie-break.  For any two scripts whose dialogue-line
extraction succeeds, script_match_text returns a pair exactly when that
pair is the positionally first eligible match (normalized texts equal,
case-sensitively; lines of the first script with normalized length below 6
skipped): no earlier line of the first script matches anything in the
second, and within the matched first line no earlier line of the second
script matches it.  It returns null exactly when no eligible pair exists at
all. -/
theorem c7_matcher_first_pair (s1 s2 : List Char) (d1 d2 : List DialogueLine)
    (hd1 : script_dialogue_lines s1 = .ok d1)
    (hd2 : script_dialogue_lines s2 = .ok d2) :
    (∀ a b, script_match_text s1 s2 = .ok (some (a, b))
      ↔ ∃ i j, firstMatchPair d1 d2 i j a b)
    ∧ (script_match_text s1 s2 = .ok none
      ↔ ∀ a ∈ d1, ∀ b ∈ d2, ¬ lineEligibleMatch a b) := by
  have hm : script_match_text s1 s2 = .ok (script_match_line d1 d2) := by
    simp only [script_match_text, hd1, except_bind_ok, hd2]
    rfl
  constructor
  · intro a b
    rw [hm]
    constructor
    · intro h
      exact (script_match_line_some_iff d1 d2 a b).mp (by simpa using h)
    · intro h
      have := (script_match_line_some_iff d1 d2 a b).mpr h
      rw [this]
  · rw [hm]
    constructor
    · intro h
      exact (script_match_line_none_iff d1 d2).mp (by simpa using h)
    · intro h
      have := (script_match_line_none_iff d1 d2).mpr h
      rw [this]

/-- C7 witness: in the concrete scripts, the too-short first line (abc) is
skipped and the returned pair is line 1 of the first script with line 1 of
the second. -/
theorem c7_matcher_first_pair_witness :
    ∃ i j, firstMatchPair dialoguesC7a dialoguesC7b i j dlC7a1 dlC7b1 := by
  have h := (c7_matcher_first_pair scriptC7a scriptC7b dialoguesC7a dialoguesC7b
    (by decide) (by decide)).1 dlC7a1 dlC7b1
  exact h.mp (by decide)
